import Mathlib

/-!
# learnDesignPatterns: creational patterns

A shallow embedding of the five creational-pattern programs of the repository
(`AbstractFactory.cpp`, `FactoryMethod.cpp`, `Builder.cpp`, `Prototype.cpp`,
`Singleton.cpp`) and the properties of their operations.

Objects created with `new` live in an explicit free store (`Heap`), pointers are
optional addresses (`none` is `nullptr`), and a call either returns, throws, or
has undefined behaviour (`Outcome`).
-/

namespace DesignPatterns

/-! ## The free store and the outcome of a call -/

/-- A C++ pointer: `none` is `nullptr`, `some a` is the address `a`. -/
abbrev Ptr := Option Nat

/-- The error taxonomy named by the specification; a thrown exception would carry
one of these. -/
inductive Error where
  | UnsupportedCapability
  | NoBuilderAttached
  | DoubleRelease
  | ForeignProduct
  deriving DecidableEq

/-- What a call can do: return a value, throw, or run into undefined behaviour
(null or dangling dereference, double `delete`). -/
inductive Outcome (α : Type) where
  | returned (a : α)
  | raised (e : Error)
  | undefined
  deriving DecidableEq

/-- Sequencing of calls: the second runs only if the first returned. -/
def Outcome.bind {α β : Type} (o : Outcome α) (f : α → Outcome β) : Outcome β :=
  match o with
  | .returned a => f a
  | .raised e => .raised e
  | .undefined => .undefined

/-- The free store for objects of type `α`. Address `a` is the `a`-th allocation;
its cell is `some v` while the object is alive and `none` once it was deleted. -/
structure Heap (α : Type) where
  cells : List (Option α)
  deriving DecidableEq

namespace Heap

variable {α : Type}

/-- The store before any allocation. -/
def empty : Heap α := ⟨[]⟩

/-- The live object at address `a`, if there is one. -/
def read (h : Heap α) (a : Nat) : Option α :=
  match h.cells[a]? with
  | some (some v) => some v
  | _ => none

/-- Operator `new`: a fresh address holding `v`. -/
def alloc (h : Heap α) (v : α) : Nat × Heap α :=
  (h.cells.length, ⟨h.cells ++ [some v]⟩)

/-- Assignment through a pointer to a live object. -/
def write (h : Heap α) (a : Nat) (v : α) : Heap α :=
  ⟨h.cells.set a (some v)⟩

/-- Operator `delete` on a non-null address: defined only for a live object. -/
def free (h : Heap α) (a : Nat) : Option (Heap α) :=
  match h.read a with
  | some _ => some ⟨h.cells.set a none⟩
  | none => none

/-- The expression `delete p`: nothing for `nullptr`, undefined behaviour for an
address that holds no live object. -/
def delete (h : Heap α) (p : Ptr) : Outcome (Heap α) :=
  match p with
  | none => .returned h
  | some a =>
    match h.free a with
    | some h' => .returned h'
    | none => .undefined

end Heap

/-! ## Builder.cpp -/

namespace Builder

/-- Class `Car`: three `std::string` members. -/
structure Car where
  seatStatus : String
  engineStatus : String
  computer : String
  deriving DecidableEq

/-- The implicit default constructor of `Car`: every string is empty. -/
def Car.new : Car := ⟨"", "", ""⟩

def Car.makeSeat (this : Car) (seat : String) : Car :=
  { this with seatStatus := seat }

def Car.makeEngine (this : Car) (engineStatus : String) : Car :=
  { this with engineStatus := engineStatus }

def Car.makeComputer (this : Car) (computer : String) : Car :=
  { this with computer := computer }

/-- The concrete classes deriving from `CarBuilder` (the dynamic type of a builder). -/
inductive BuilderClass where
  | SedanBuilder
  | SuvBuilder
  deriving DecidableEq

/-- A `CarBuilder` object: its dynamic type and the protected member `car`. -/
structure CarBuilder where
  cls : BuilderClass
  car : Car
  deriving DecidableEq

/-- The expression `SedanBuilder()` / `SuvBuilder()`: the member `car` is default constructed. -/
def CarBuilder.new (cls : BuilderClass) : CarBuilder := ⟨cls, Car.new⟩

/-- Method `Car get() { return this->car; }`: a copy of the car. -/
def CarBuilder.get (this : CarBuilder) : Car := this.car

def SedanBuilder.buildSeat (car : Car) : Car := car.makeSeat "<> Initialize Sedan Seat"
def SedanBuilder.buildEngine (car : Car) : Car := car.makeEngine "<> Initialize Sedan Engine"
def SedanBuilder.buildComputer (car : Car) : Car := car.makeComputer "<> Initialize Sedan Computer"

def SuvBuilder.buildSeat (car : Car) : Car := car.makeSeat "<> Initialize Suv Seat"
def SuvBuilder.buildEngine (car : Car) : Car := car.makeEngine "<> Initialize Suv Engine"
def SuvBuilder.buildComputer (car : Car) : Car := car.makeComputer "<> Initialize Suv Computer"

/-- Virtual call `buildSeat()`. -/
def CarBuilder.buildSeat (this : CarBuilder) : CarBuilder :=
  match this.cls with
  | .SedanBuilder => { this with car := SedanBuilder.buildSeat this.car }
  | .SuvBuilder => { this with car := SuvBuilder.buildSeat this.car }

/-- Virtual call `buildEngine()`. -/
def CarBuilder.buildEngine (this : CarBuilder) : CarBuilder :=
  match this.cls with
  | .SedanBuilder => { this with car := SedanBuilder.buildEngine this.car }
  | .SuvBuilder => { this with car := SuvBuilder.buildEngine this.car }

/-- Virtual call `buildComputer()`. -/
def CarBuilder.buildComputer (this : CarBuilder) : CarBuilder :=
  match this.cls with
  | .SedanBuilder => { this with car := SedanBuilder.buildComputer this.car }
  | .SuvBuilder => { this with car := SuvBuilder.buildComputer this.car }

/-- The three build steps, as data, to speak about sequences of calls. -/
inductive Step where
  | buildSeat
  | buildEngine
  | buildComputer
  deriving DecidableEq

/-- One build step called on a builder. -/
def CarBuilder.step (this : CarBuilder) : Step → CarBuilder
  | .buildSeat => this.buildSeat
  | .buildEngine => this.buildEngine
  | .buildComputer => this.buildComputer

/-- A sequence of build steps called one after the other. -/
def CarBuilder.steps (this : CarBuilder) : List Step → CarBuilder
  | [] => this
  | s :: rest => (this.step s).steps rest

/-- The order in which `CarDirector::construct` calls the build steps. -/
def constructOrder : List Step := [.buildSeat, .buildEngine, .buildComputer]

/-- Class `CarDirector`: the member `CarBuilder *builder`. -/
structure CarDirector where
  builder : Ptr
  deriving DecidableEq

/-- Constructor `CarDirector() : builder() {}`: the pointer is value-initialised to null. -/
def CarDirector.new : CarDirector := ⟨none⟩

/-- A member call `p->m()` through a builder pointer, where `m` updates the object. -/
def call (h : Heap CarBuilder) (p : Ptr) (m : CarBuilder → CarBuilder) :
    Outcome (Heap CarBuilder) :=
  match p with
  | none => .undefined
  | some a =>
    match h.read a with
    | some b => .returned (h.write a (m b))
    | none => .undefined

/-- Method `set`: deletes the builder held so far, if any, and stores the new pointer. -/
def CarDirector.set (this : CarDirector) (h : Heap CarBuilder) (builder : Ptr) :
    Outcome (CarDirector × Heap CarBuilder) :=
  match this.builder with
  | none => .returned ({ this with builder := builder }, h)
  | some a => (h.delete (some a)).bind fun h' => .returned ({ this with builder := builder }, h')

/-- Method `get`: `return builder->get();`. -/
def CarDirector.get (this : CarDirector) (h : Heap CarBuilder) : Outcome Car :=
  match this.builder with
  | none => .undefined
  | some a =>
    match h.read a with
    | some b => .returned b.get
    | none => .undefined

/-- The interface of the abstract class `CarBuilder`: the overriders of its three pure
virtual methods `buildSeat`, `buildEngine`, `buildComputer`, as a derived class
supplies them. -/
structure Overriders where
  buildSeat : CarBuilder → CarBuilder
  buildEngine : CarBuilder → CarBuilder
  buildComputer : CarBuilder → CarBuilder

/-- The overriders of the two derived classes of the program, selected by the dynamic
type of the object. -/
def CarBuilder.overriders : Overriders :=
  ⟨CarBuilder.buildSeat, CarBuilder.buildEngine, CarBuilder.buildComputer⟩

/-- The body of `CarDirector::construct`, which is written against the abstract class:
`builder->buildSeat(); builder->buildEngine(); builder->buildComputer();`, three
virtual calls through `builder`, in this order, whatever the overriders `v` are. -/
def CarDirector.constructVia (this : CarDirector) (v : Overriders) (h : Heap CarBuilder) :
    Outcome (Heap CarBuilder) :=
  ((call h this.builder v.buildSeat).bind fun h1 =>
    call h1 this.builder v.buildEngine).bind fun h2 =>
    call h2 this.builder v.buildComputer

/-- Method `construct` in the program, where every builder is a `SedanBuilder` or a
`SuvBuilder`. -/
def CarDirector.construct (this : CarDirector) (h : Heap CarBuilder) :
    Outcome (Heap CarBuilder) :=
  this.constructVia CarBuilder.overriders h

/-- The client sequence of `main`: `set(new B())`, `construct()`, `get()`; gives the
car returned by `get` with the director and the store as they then are. -/
def CarDirector.build (this : CarDirector) (h : Heap CarBuilder) (cls : BuilderClass) :
    Outcome (Car × CarDirector × Heap CarBuilder) :=
  let (a, h0) := h.alloc (CarBuilder.new cls)
  (this.set h0 (some a)).bind fun (d, h1) =>
    (d.construct h1).bind fun h2 =>
      (d.get h2).bind fun car => .returned (car, d, h2)

end Builder

/-! ## Singleton.cpp -/

/-- Class `Singleton`: an object without data members. -/
structure Singleton where
  deriving DecidableEq

namespace Singleton

/-- The state the class lives in: the free store of `Singleton` objects and the
static member `thisInstance`. -/
structure Statics where
  heap : Heap Singleton
  thisInstance : Ptr
  deriving DecidableEq

/-- Program start: `Singleton* Singleton::thisInstance = nullptr;`. -/
def Statics.init : Statics := ⟨Heap.empty, none⟩

/-- Static method `get`: `if (!thisInstance) { thisInstance = new Singleton(); }; return thisInstance;`. -/
def get (s : Statics) : Ptr × Statics :=
  match s.thisInstance with
  | none =>
    let (a, h) := s.heap.alloc ⟨⟩
    (some a, { heap := h, thisInstance := some a })
  | some a => (some a, s)

/-- Static method `restart`: `if (thisInstance) { delete thisInstance; };`. -/
def restart (s : Statics) : Outcome Statics :=
  match s.thisInstance with
  | none => .returned s
  | some a => (s.heap.delete (some a)).bind fun h => .returned { s with heap := h }

/-- The two static methods, as data, to speak about sequences of calls. -/
inductive Call where
  | get
  | restart
  deriving DecidableEq

/-- A sequence of calls, one after the other (the pointers `get` returns are dropped). -/
def run (s : Statics) : List Call → Outcome Statics
  | [] => .returned s
  | .get :: rest => run (get s).2 rest
  | .restart :: rest => (restart s).bind fun s' => run s' rest

/-- The state after `n` consecutive calls of `get`. -/
def gets (s : Statics) : Nat → Statics
  | 0 => s
  | n + 1 => gets (get s).2 n

/-- Whether a pointer points to a live `Singleton` object. -/
def live (s : Statics) (p : Ptr) : Bool :=
  match p with
  | none => false
  | some a => (s.heap.read a).isSome

end Singleton

/-! ## Prototype.cpp -/

namespace Prototype

/-- A C++ `double`, as its 64-bit pattern: copying a `double` copies the pattern. -/
structure Double where
  bits : Nat
  deriving DecidableEq

/-- The literal `0` converted to `double` (all bits clear). -/
def Double.zero : Double := ⟨0⟩

/-- Class `Shape`: the base subobject with the private members `x`, `y`, `color`. -/
structure Shape where
  x : Double
  y : Double
  color : String
  deriving DecidableEq

/-- Class `Rectangle : public Shape`. -/
structure Rectangle extends Shape where
  width : Double
  height : Double
  deriving DecidableEq

/-- Class `Circle : public Shape`. -/
structure Circle extends Shape where
  radius : Double
  deriving DecidableEq

/-- Constructor `Rectangle()`. No constructor of the program initialises `x` and `y`:
`x0`, `y0` are what the storage happens to hold; `color` is default constructed. -/
def Rectangle.new (x0 y0 : Double) : Rectangle :=
  { x := x0, y := y0, color := "", width := Double.zero, height := Double.zero }

/-- Constructor `Rectangle(double width, double height)`. -/
def Rectangle.ofSize (x0 y0 : Double) (width height : Double) : Rectangle :=
  { x := x0, y := y0, color := "", width := width, height := height }

/-- Constructor `Rectangle(Rectangle *thisRectangle)`: copies `width` and `height` only. -/
def Rectangle.ofPtr (x0 y0 : Double) (thisRectangle : Rectangle) : Rectangle :=
  { x := x0, y := y0, color := "", width := thisRectangle.width, height := thisRectangle.height }

/-- The implicitly declared copy constructor `Rectangle(const Rectangle&)`, which
`new Rectangle(*this)` selects: the base subobject and each member are copied. -/
def Rectangle.copy (other : Rectangle) : Rectangle :=
  { x := other.x, y := other.y, color := other.color,
    width := other.width, height := other.height }

/-- Constructor `Circle()`. -/
def Circle.new (x0 y0 : Double) : Circle :=
  { x := x0, y := y0, color := "", radius := Double.zero }

/-- Constructor `Circle(double radius)`. -/
def Circle.ofRadius (x0 y0 : Double) (radius : Double) : Circle :=
  { x := x0, y := y0, color := "", radius := radius }

/-- Constructor `Circle(Circle *thisCircle)`: copies `radius` only. -/
def Circle.ofPtr (x0 y0 : Double) (thisCircle : Circle) : Circle :=
  { x := x0, y := y0, color := "", radius := thisCircle.radius }

/-- The implicitly declared copy constructor `Circle(const Circle&)`, which
`new Circle(*this)` selects. -/
def Circle.copy (other : Circle) : Circle :=
  { x := other.x, y := other.y, color := other.color, radius := other.radius }

/-- An object behind a `Shape*`: its dynamic type with its members. -/
inductive Object where
  | Rectangle (r : Rectangle)
  | Circle (c : Circle)
  deriving DecidableEq

/-- Virtual call `p->clone()`: `return new Rectangle(*this);` or `return new Circle(*this);`.
Gives the new pointer and the store after the call. -/
def clone (h : Heap Object) (p : Ptr) : Outcome (Ptr × Heap Object) :=
  match p with
  | none => .undefined
  | some a =>
    match h.read a with
    | some (.Rectangle r) =>
      let (q, h') := h.alloc (.Rectangle (Rectangle.copy r))
      .returned (some q, h')
    | some (.Circle c) =>
      let (q, h') := h.alloc (.Circle (Circle.copy c))
      .returned (some q, h')
    | none => .undefined

end Prototype

/-! ## AbstractFactory.cpp -/

namespace AbstractFactory

/-- The two product families of the program. -/
inductive Family where
  | Win
  | Mac
  deriving DecidableEq

/-- The family name as it appears in class names and in the printed text. -/
def Family.name : Family → String
  | .Win => "Win"
  | .Mac => "Mac"

/-- The concrete classes deriving from `Button`. -/
inductive Button where
  | MacButton
  | WinButton
  deriving DecidableEq

/-- Virtual call `showName()`: the line it prints. -/
def Button.showName : Button → String
  | .MacButton => "<> Initialize Mac button"
  | .WinButton => "<> Initialize Win button"

/-- The family of a button class. -/
def Button.family : Button → Family
  | .MacButton => .Mac
  | .WinButton => .Win

/-- The concrete classes deriving from `Checkbox`. -/
inductive Checkbox where
  | WinCheckbox
  | MacCheckbox
  deriving DecidableEq

/-- Virtual call `showName()`: the line it prints. -/
def Checkbox.showName : Checkbox → String
  | .WinCheckbox => "<> Initialize Win Checkbox"
  | .MacCheckbox => "<> Initialize Mac Checkbox"

/-- The family of a checkbox class. -/
def Checkbox.family : Checkbox → Family
  | .WinCheckbox => .Win
  | .MacCheckbox => .Mac

/-- The concrete classes deriving from `AbstractFactory`. -/
inductive Factory where
  | WinGUI
  | MacGUI
  deriving DecidableEq

/-- The family of a factory class. -/
def Factory.family : Factory → Family
  | .WinGUI => .Win
  | .MacGUI => .Mac

/-- Virtual call `createButton()`: the object that `new` creates. -/
def Factory.createButton : Factory → Button
  | .WinGUI => .WinButton
  | .MacGUI => .MacButton

/-- Virtual call `createCheckbox()`: the object that `new` creates. -/
def Factory.createCheckbox : Factory → Checkbox
  | .WinGUI => .WinCheckbox
  | .MacGUI => .MacCheckbox

end AbstractFactory

/-! ## FactoryMethod.cpp -/

namespace FactoryMethod

/-- The concrete classes deriving from `Button`. -/
inductive Button where
  | WinButton
  | MacButton
  deriving DecidableEq

/-- Virtual call `showName()`: the line it prints. -/
def Button.showName : Button → String
  | .WinButton => "<> This is Win Button"
  | .MacButton => "<> This is Mac Button"

/-- The concrete classes deriving from `Dialog`. -/
inductive Dialog where
  | WinDialog
  | MacDialog
  deriving DecidableEq

/-- Virtual call `createButton()`: `return new WinButton();` or `return new MacButton();`. -/
def Dialog.createButton (this : Dialog) (h : Heap Button) : Ptr × Heap Button :=
  match this with
  | .WinDialog =>
    let (a, h') := h.alloc .WinButton
    (some a, h')
  | .MacDialog =>
    let (a, h') := h.alloc .MacButton
    (some a, h')

/-- Virtual call `removeButton(button)`: `delete button;` in both classes. -/
def Dialog.removeButton (this : Dialog) (h : Heap Button) (button : Ptr) :
    Outcome (Heap Button) :=
  match this with
  | .WinDialog => h.delete button
  | .MacDialog => h.delete button

end FactoryMethod

/-! ## Facts about the free store -/

namespace Heap

variable {α : Type}

theorem read_lt {h : Heap α} {a : Nat} {x : α} (hr : h.read a = some x) :
    a < h.cells.length := by
  unfold read at hr
  by_contra hlt
  rw [List.getElem?_eq_none (Nat.le_of_not_lt hlt)] at hr
  simp at hr

theorem read_alloc_self (h : Heap α) (v : α) :
    (h.alloc v).2.read (h.alloc v).1 = some v := by
  simp [alloc, read]

theorem read_alloc_of_lt (h : Heap α) (v : α) {a : Nat} (ha : a < h.cells.length) :
    (h.alloc v).2.read a = h.read a := by
  simp [alloc, read, List.getElem?_append_left ha]

theorem read_alloc_of_read (h : Heap α) (v : α) {a : Nat} {x : α} (hr : h.read a = some x) :
    (h.alloc v).2.read a = some x := by
  rw [read_alloc_of_lt h v (read_lt hr), hr]

theorem read_write_self {h : Heap α} {a : Nat} (v : α) (ha : a < h.cells.length) :
    (h.write a v).read a = some v := by
  simp [write, read, List.getElem?_set_self, ha]

theorem read_write_other (h : Heap α) {a b : Nat} (v : α) (hne : b ≠ a) :
    (h.write a v).read b = h.read b := by
  simp [write, read, List.getElem?_set_ne (Ne.symm hne)]

theorem write_write (h : Heap α) (a : Nat) (v w : α) :
    (h.write a v).write a w = h.write a w := by
  simp [write]

theorem free_of_read {h : Heap α} {a : Nat} {x : α} (hr : h.read a = some x) :
    h.free a = some ⟨h.cells.set a none⟩ := by
  simp [free, hr]

theorem read_free_self {h h' : Heap α} {a : Nat} (hf : h.free a = some h') :
    h'.read a = none := by
  unfold free at hf
  split at hf
  · next x hx =>
    have hlt := read_lt hx
    cases hf
    simp [read, List.getElem?_set_self, hlt]
  · simp at hf

theorem read_free_other {h h' : Heap α} {a b : Nat} (hf : h.free a = some h') (hne : b ≠ a) :
    h'.read b = h.read b := by
  unfold free at hf
  split at hf
  · cases hf
    simp [read, List.getElem?_set_ne (Ne.symm hne)]
  · simp at hf

theorem free_eq_none {h : Heap α} {a : Nat} (hr : h.read a = none) : h.free a = none := by
  simp [free, hr]

end Heap

/-! ## Builder.cpp: lemmas -/

namespace Builder

theorem call_of_read {h : Heap CarBuilder} {a : Nat} {b : CarBuilder}
    (m : CarBuilder → CarBuilder) (hr : h.read a = some b) :
    call h (some a) m = .returned (h.write a (m b)) := by
  simp [call, hr]

/-- On a live builder, `construct` returns, and the builder is then what the
overrider of `buildComputer` makes of what the overrider of `buildEngine` makes of
what the overrider of `buildSeat` makes of the builder before the call. -/
theorem constructVia_of_read (v : Overriders) {h : Heap CarBuilder} {a : Nat}
    {b : CarBuilder} (hr : h.read a = some b) :
    (CarDirector.mk (some a)).constructVia v h
      = .returned (h.write a (v.buildComputer (v.buildEngine (v.buildSeat b)))) := by
  have hlt := Heap.read_lt hr
  have h1 : (h.write a (v.buildSeat b)).read a = some (v.buildSeat b) :=
    Heap.read_write_self _ hlt
  have h2 : (h.write a (v.buildEngine (v.buildSeat b))).read a
      = some (v.buildEngine (v.buildSeat b)) :=
    Heap.read_write_self _ hlt
  simp [CarDirector.constructVia, call_of_read _ hr, Outcome.bind, call_of_read _ h1,
    Heap.write_write, call_of_read _ h2]

theorem construct_of_read {h : Heap CarBuilder} {a : Nat} {b : CarBuilder}
    (hr : h.read a = some b) :
    (CarDirector.mk (some a)).construct h
      = .returned (h.write a (b.steps constructOrder)) := by
  unfold CarDirector.construct
  rw [constructVia_of_read _ hr]
  rfl

theorem get_of_read {h : Heap CarBuilder} {a : Nat} {b : CarBuilder}
    (hr : h.read a = some b) :
    (CarDirector.mk (some a)).get h = .returned b.car := by
  simp [CarDirector.get, hr, CarBuilder.get]

/-- Running `construct` and `get` on a director whose builder is alive. -/
theorem construct_get_of_read {h : Heap CarBuilder} {a : Nat} {b : CarBuilder}
    (hr : h.read a = some b) :
    ((CarDirector.mk (some a)).construct h).bind (fun h2 =>
        ((CarDirector.mk (some a)).get h2).bind fun car =>
          .returned (car, CarDirector.mk (some a), h2))
      = .returned ((b.steps constructOrder).car, CarDirector.mk (some a),
          h.write a (b.steps constructOrder)) := by
  rw [construct_of_read hr]
  simp [Outcome.bind, get_of_read (Heap.read_write_self (b.steps constructOrder) (Heap.read_lt hr))]

/-- The client sequence on a director without a builder. -/
theorem build_of_null (h : Heap CarBuilder) (cls : BuilderClass) :
    CarDirector.new.build h cls
      = .returned (((CarBuilder.new cls).steps constructOrder).car,
          CarDirector.mk (some h.cells.length),
          (h.alloc (CarBuilder.new cls)).2.write h.cells.length
            ((CarBuilder.new cls).steps constructOrder)) := by
  have hr := Heap.read_alloc_self h (CarBuilder.new cls)
  have := construct_get_of_read hr
  simpa [CarDirector.build, CarDirector.new, CarDirector.set, Outcome.bind, Heap.alloc] using this

/-- The client sequence on a director whose builder is alive: the old builder is
deleted, the new one is driven and read. -/
theorem build_of_live {h : Heap CarBuilder} {a : Nat} {b : CarBuilder}
    (hr : h.read a = some b) (cls : BuilderClass) :
    ∃ h2, (CarDirector.mk (some a)).build h cls
      = .returned (((CarBuilder.new cls).steps constructOrder).car,
          CarDirector.mk (some h.cells.length), h2)
      ∧ h2.read a = none
      ∧ h2.read h.cells.length = some ((CarBuilder.new cls).steps constructOrder) := by
  have hlt := Heap.read_lt hr
  have hne : h.cells.length ≠ a := Nat.ne_of_gt hlt
  have hr0 : (h.alloc (CarBuilder.new cls)).2.read a = some b :=
    Heap.read_alloc_of_read h _ hr
  have hf := Heap.free_of_read hr0
  have hnew : (Heap.mk (((h.alloc (CarBuilder.new cls)).2).cells.set a none)).read h.cells.length
      = some (CarBuilder.new cls) := by
    rw [Heap.read_free_other hf hne]
    exact Heap.read_alloc_self h _
  have hold : (Heap.mk (((h.alloc (CarBuilder.new cls)).2).cells.set a none)).read a = none :=
    Heap.read_free_self hf
  refine ⟨(Heap.mk (((h.alloc (CarBuilder.new cls)).2).cells.set a none)).write h.cells.length
    ((CarBuilder.new cls).steps constructOrder), ?_, ?_, ?_⟩
  · have := construct_get_of_read hnew
    simp only [CarDirector.build, CarDirector.set, Heap.delete, hf, Outcome.bind]
    exact this
  · rw [Heap.read_write_other _ _ (Ne.symm hne)]
    exact hold
  · exact Heap.read_write_self _ (Heap.read_lt hnew)

/-- What a returned client sequence tells: the director holds the new builder, which
is alive and fully driven, and the car is the one of the class. -/
theorem build_returned {d d1 : CarDirector} {h h1 : Heap CarBuilder} {cls : BuilderClass}
    {car : Car} (hb : d.build h cls = .returned (car, d1, h1)) :
    d1 = CarDirector.mk (some h.cells.length)
      ∧ h1.read h.cells.length = some ((CarBuilder.new cls).steps constructOrder)
      ∧ car = ((CarBuilder.new cls).steps constructOrder).car := by
  obtain ⟨p⟩ := d
  cases p with
  | none =>
    have := build_of_null h cls
    simp only [CarDirector.new] at this
    rw [this] at hb
    simp only [Outcome.returned.injEq, Prod.mk.injEq] at hb
    obtain ⟨h1c, h2c, h3c⟩ := hb
    subst h1c h2c h3c
    refine ⟨rfl, ?_, rfl⟩
    exact Heap.read_write_self _ (by simp [Heap.alloc])
  | some a =>
    cases hra : h.read a with
    | some b =>
      obtain ⟨h2, he, _, hnew⟩ := build_of_live hra cls
      rw [he] at hb
      simp only [Outcome.returned.injEq, Prod.mk.injEq] at hb
      obtain ⟨h1c, h2c, h3c⟩ := hb
      subst h1c h2c h3c
      exact ⟨rfl, hnew, rfl⟩
    | none =>
      exfalso
      by_cases hal : a = h.cells.length
      · subst hal
        have hr0 := Heap.read_alloc_self h (CarBuilder.new cls)
        have hf := Heap.free_of_read hr0
        have hgone : (Heap.mk (h.cells ++ [(none : Option CarBuilder)])).read h.cells.length
            = none := by
          simp [Heap.read]
        simp only [Heap.alloc] at hf
        simp [CarDirector.build, CarDirector.set, Heap.delete, Heap.alloc, hf, Outcome.bind,
          CarDirector.construct, CarDirector.constructVia, call, hgone] at hb
      · have hr0 : (h.alloc (CarBuilder.new cls)).2.read a = none := by
          simp only [Heap.read, Heap.alloc] at hra ⊢
          by_cases hlt : a < h.cells.length
          · simpa [List.getElem?_append_left hlt] using hra
          · have : h.cells.length + 1 ≤ a := by omega
            rw [List.getElem?_eq_none (by simpa using this)]
        have hf := Heap.free_eq_none hr0
        simp only [Heap.alloc] at hf
        simp [CarDirector.build, CarDirector.set, Heap.delete, Heap.alloc, hf, Outcome.bind] at hb

theorem call_ne_raised (h : Heap CarBuilder) (p : Ptr) (m : CarBuilder → CarBuilder)
    (e : Error) : call h p m ≠ .raised e := by
  unfold call
  cases p with
  | none => simp
  | some a => cases hx : h.read a <;> simp [hx]

theorem bind_call_ne_raised (o : Outcome (Heap CarBuilder)) (p : Ptr)
    (m : CarBuilder → CarBuilder) (e : Error) (ho : o ≠ .raised e) :
    (o.bind fun h1 => call h1 p m) ≠ .raised e := by
  cases o with
  | returned h1 => exact call_ne_raised h1 p m e
  | raised e1 => simpa [Outcome.bind] using ho
  | undefined => simp [Outcome.bind]

/-- The car after a sequence of steps on a `SedanBuilder`. -/
theorem steps_sedan (car : Car) (l : List Step) :
    ((CarBuilder.mk .SedanBuilder car).steps l).get =
      ⟨if Step.buildSeat ∈ l then "<> Initialize Sedan Seat" else car.seatStatus,
       if Step.buildEngine ∈ l then "<> Initialize Sedan Engine" else car.engineStatus,
       if Step.buildComputer ∈ l then "<> Initialize Sedan Computer" else car.computer⟩ := by
  induction l generalizing car with
  | nil => simp [CarBuilder.steps, CarBuilder.get]
  | cons s rest ih =>
    cases s <;>
      simp [CarBuilder.steps, CarBuilder.step, CarBuilder.buildSeat, CarBuilder.buildEngine,
        CarBuilder.buildComputer, SedanBuilder.buildSeat, SedanBuilder.buildEngine,
        SedanBuilder.buildComputer, Car.makeSeat, Car.makeEngine, Car.makeComputer, ih]

/-- The car after a sequence of steps on a `SuvBuilder`. -/
theorem steps_suv (car : Car) (l : List Step) :
    ((CarBuilder.mk .SuvBuilder car).steps l).get =
      ⟨if Step.buildSeat ∈ l then "<> Initialize Suv Seat" else car.seatStatus,
       if Step.buildEngine ∈ l then "<> Initialize Suv Engine" else car.engineStatus,
       if Step.buildComputer ∈ l then "<> Initialize Suv Computer" else car.computer⟩ := by
  induction l generalizing car with
  | nil => simp [CarBuilder.steps, CarBuilder.get]
  | cons s rest ih =>
    cases s <;>
      simp [CarBuilder.steps, CarBuilder.step, CarBuilder.buildSeat, CarBuilder.buildEngine,
        CarBuilder.buildComputer, SuvBuilder.buildSeat, SuvBuilder.buildEngine,
        SuvBuilder.buildComputer, Car.makeSeat, Car.makeEngine, Car.makeComputer, ih]

/-- Every build step, called twice, leaves what one call leaves. -/
theorem step_step (b : CarBuilder) (s : Step) : (b.step s).step s = b.step s := by
  obtain ⟨cls, car⟩ := b
  cases s <;> cases cls <;> rfl

/-- The director's sequence, run twice, leaves what one run leaves. -/
theorem steps_constructOrder_twice (b : CarBuilder) :
    (b.steps constructOrder).steps constructOrder = b.steps constructOrder := by
  obtain ⟨cls, car⟩ := b
  cases cls <;> rfl

/-! ## Builder.cpp: the claims -/

/-- C1, as stated, fails: the Sedan car built through a fresh director on the empty
store does not have the parts "Sedan Seat", "Sedan Engine", "Sedan Computer". -/
theorem C1_sedan_parts_are_not_the_short_strings :
    ∃ car d h, CarDirector.new.build Heap.empty .SedanBuilder = .returned (car, d, h)
      ∧ car.seatStatus ≠ "Sedan Seat"
      ∧ car.engineStatus ≠ "Sedan Engine"
      ∧ car.computer ≠ "Sedan Computer" :=
  ⟨_, _, _, build_of_null Heap.empty .SedanBuilder, by decide, by decide, by decide⟩

/-- C1, amended: on any store, a fresh director driven through `set(new SedanBuilder())`,
`construct()`, `get()` returns the car with the parts "<> Initialize Sedan Seat",
"<> Initialize Sedan Engine", "<> Initialize Sedan Computer"; and the parts are set in
the fixed order seat, engine, computer: whatever the overriders of the three virtual
methods are, `construct()` on a live builder `b` returns and leaves the builder that
`buildComputer` makes of what `buildEngine` makes of what `buildSeat` makes of `b`. -/
theorem C1_sedan_build_parts (h : Heap CarBuilder) (v : Overriders) (h0 : Heap CarBuilder)
    (a : Nat) (b : CarBuilder) (hr : h0.read a = some b) :
    (∃ h', CarDirector.new.build h .SedanBuilder
        = .returned (⟨"<> Initialize Sedan Seat", "<> Initialize Sedan Engine",
            "<> Initialize Sedan Computer"⟩, CarDirector.mk (some h.cells.length), h')
      ∧ h'.read h.cells.length
        = some (CarBuilder.new .SedanBuilder).buildSeat.buildEngine.buildComputer)
    ∧ (CarDirector.mk (some a)).constructVia v h0
        = .returned (h0.write a (v.buildComputer (v.buildEngine (v.buildSeat b))))
    ∧ (CarDirector.mk (some a)).construct h0
        = .returned (h0.write a b.buildSeat.buildEngine.buildComputer) :=
  ⟨⟨_, build_of_null h .SedanBuilder, Heap.read_write_self _ (by simp [Heap.alloc])⟩,
    constructVia_of_read v hr, constructVia_of_read CarBuilder.overriders hr⟩

/-- Witness of C1: overriders that each append their initial to the seat string, on a
fresh builder at address 0, leave the seat string "SEC", which no other order of the
three calls leaves. -/
theorem C1_sedan_build_parts_witness :
    (Heap.mk [some (CarBuilder.new .SedanBuilder)]).read 0
        = some (CarBuilder.new .SedanBuilder)
    ∧ (CarDirector.mk (some 0)).constructVia
        ⟨fun b => ⟨b.cls, b.car.makeSeat (b.car.seatStatus ++ "S")⟩,
         fun b => ⟨b.cls, b.car.makeSeat (b.car.seatStatus ++ "E")⟩,
         fun b => ⟨b.cls, b.car.makeSeat (b.car.seatStatus ++ "C")⟩⟩
        ⟨[some (CarBuilder.new .SedanBuilder)]⟩
      = .returned ⟨[some ⟨.SedanBuilder, ⟨"SEC", "", ""⟩⟩]⟩ :=
  ⟨rfl, (C1_sedan_build_parts Heap.empty
    ⟨fun b => ⟨b.cls, b.car.makeSeat (b.car.seatStatus ++ "S")⟩,
     fun b => ⟨b.cls, b.car.makeSeat (b.car.seatStatus ++ "E")⟩,
     fun b => ⟨b.cls, b.car.makeSeat (b.car.seatStatus ++ "C")⟩⟩
    ⟨[some (CarBuilder.new .SedanBuilder)]⟩ 0 (CarBuilder.new .SedanBuilder) rfl).2.1.trans
    (by decide)⟩

/-- C6, as stated, fails: on a fresh director neither `construct()` nor `get()` ends in
a `NoBuilderAttached` error. -/
theorem C6_no_error_is_reported :
    CarDirector.new.construct Heap.empty ≠ .raised .NoBuilderAttached
      ∧ CarDirector.new.get Heap.empty ≠ .raised .NoBuilderAttached := by
  decide

/-- C6, amended: on a fresh director `construct()` and `get()` dereference the null
builder pointer unchecked, which is undefined behaviour; and no call of `construct`,
`get` or `set`, in any state, reports an error to the caller. -/
theorem C6_null_builder_is_dereferenced (h : Heap CarBuilder) :
    CarDirector.new.construct h = .undefined
      ∧ CarDirector.new.get h = .undefined
      ∧ ∀ (d : CarDirector) (h0 : Heap CarBuilder) (p : Ptr) (e : Error),
          d.construct h0 ≠ .raised e ∧ d.get h0 ≠ .raised e ∧ d.set h0 p ≠ .raised e := by
  refine ⟨rfl, rfl, ?_⟩
  intro d h0 p e
  refine ⟨?_, ?_, ?_⟩
  · unfold CarDirector.construct CarDirector.constructVia
    exact bind_call_ne_raised _ _ _ _ (bind_call_ne_raised _ _ _ _ (call_ne_raised _ _ _ _))
  · unfold CarDirector.get
    cases d.builder with
    | none => simp
    | some a => cases hx : h0.read a <;> simp [hx]
  · unfold CarDirector.set
    cases d.builder with
    | none => simp
    | some a =>
      simp only [Heap.delete]
      cases h0.free a <;> simp [Outcome.bind]

/-- C8: after a director has built and returned a Sedan car `s1`, the sequence
`set(new SuvBuilder())`, `construct()`, `get()` returns a car `s2` that differs from
`s1`, none of whose parts is a part of the Sedan car; `s1` still has its three Sedan
parts, and the Sedan builder has been deleted. -/
theorem C8_switch_to_suv (d d1 : CarDirector) (h h1 : Heap CarBuilder) (s1 : Car)
    (hs : d.build h .SedanBuilder = .returned (s1, d1, h1)) :
    ∃ s2 d2 h2, d1.build h1 .SuvBuilder = .returned (s2, d2, h2)
      ∧ s2 ≠ s1
      ∧ s2.seatStatus ∉ [s1.seatStatus, s1.engineStatus, s1.computer]
      ∧ s2.engineStatus ∉ [s1.seatStatus, s1.engineStatus, s1.computer]
      ∧ s2.computer ∉ [s1.seatStatus, s1.engineStatus, s1.computer]
      ∧ s1 = ⟨"<> Initialize Sedan Seat", "<> Initialize Sedan Engine",
          "<> Initialize Sedan Computer"⟩
      ∧ s2 = ⟨"<> Initialize Suv Seat", "<> Initialize Suv Engine",
          "<> Initialize Suv Computer"⟩
      ∧ ∀ a, d1.builder = some a → h2.read a = none := by
  obtain ⟨hd1, hlive, hcar⟩ := build_returned hs
  obtain ⟨h2, he, hgone, _⟩ := build_of_live hlive .SuvBuilder
  subst hd1 hcar
  refine ⟨_, _, h2, he, ?_, ?_, ?_, ?_, ?_, ?_, ?_⟩
  · decide
  · decide
  · decide
  · decide
  · rfl
  · rfl
  · intro a ha
    cases ha
    exact hgone

/-- Witness of C8: the fresh director on the empty store. -/
theorem C8_switch_to_suv_witness :
    CarDirector.new.build Heap.empty .SedanBuilder
        = .returned (⟨"<> Initialize Sedan Seat", "<> Initialize Sedan Engine",
            "<> Initialize Sedan Computer"⟩, CarDirector.mk (some 0),
            ⟨[some ⟨.SedanBuilder, ⟨"<> Initialize Sedan Seat", "<> Initialize Sedan Engine",
              "<> Initialize Sedan Computer"⟩⟩]⟩)
    ∧ ∃ s2 d2 h2,
      (CarDirector.mk (some 0)).build
          ⟨[some ⟨.SedanBuilder, ⟨"<> Initialize Sedan Seat", "<> Initialize Sedan Engine",
            "<> Initialize Sedan Computer"⟩⟩]⟩ .SuvBuilder = .returned (s2, d2, h2)
      ∧ s2 = ⟨"<> Initialize Suv Seat", "<> Initialize Suv Engine",
          "<> Initialize Suv Computer"⟩ := by
  obtain ⟨s2, d2, h2, hb, _, _, _, _, _, hs2, _⟩ :=
    C8_switch_to_suv CarDirector.new (CarDirector.mk (some 0)) Heap.empty
      ⟨[some ⟨.SedanBuilder, ⟨"<> Initialize Sedan Seat", "<> Initialize Sedan Engine",
        "<> Initialize Sedan Computer"⟩⟩]⟩
      ⟨"<> Initialize Sedan Seat", "<> Initialize Sedan Engine",
        "<> Initialize Sedan Computer"⟩ (by decide)
  exact ⟨by decide, s2, d2, h2, hb, hs2⟩

/-- C9: for both builder classes and every finite sequence of build steps on a fresh
builder, the empty one included, `get()` returns the car in which a part holds the
string of the class if its step occurs in the sequence and is empty otherwise. -/
theorem C9_get_after_any_steps (l : List Step) :
    ((CarBuilder.new .SedanBuilder).steps l).get =
        ⟨if Step.buildSeat ∈ l then "<> Initialize Sedan Seat" else "",
         if Step.buildEngine ∈ l then "<> Initialize Sedan Engine" else "",
         if Step.buildComputer ∈ l then "<> Initialize Sedan Computer" else ""⟩
      ∧ ((CarBuilder.new .SuvBuilder).steps l).get =
        ⟨if Step.buildSeat ∈ l then "<> Initialize Suv Seat" else "",
         if Step.buildEngine ∈ l then "<> Initialize Suv Engine" else "",
         if Step.buildComputer ∈ l then "<> Initialize Suv Computer" else ""⟩ :=
  ⟨steps_sedan Car.new l, steps_suv Car.new l⟩

/-- C10: every build step called twice in a row on any builder leaves the builder as
one call leaves it; and on a director whose builder is alive, `construct()` returns,
a second `construct()` returns the same store, and `get()` gives the same car after
either. -/
theorem C10_steps_and_construct_idempotent (d : CarDirector) (h : Heap CarBuilder)
    (a : Nat) (b : CarBuilder) (hd : d.builder = some a) (hr : h.read a = some b) :
    (∀ b0 : CarBuilder, b0.buildSeat.buildSeat = b0.buildSeat
        ∧ b0.buildEngine.buildEngine = b0.buildEngine
        ∧ b0.buildComputer.buildComputer = b0.buildComputer)
      ∧ ∃ h1 car, d.construct h = .returned h1 ∧ d.get h1 = .returned car
          ∧ d.construct h1 = .returned h1 ∧ car = (b.steps constructOrder).car := by
  obtain ⟨p⟩ := d
  cases hd
  refine ⟨fun b0 => ⟨step_step b0 .buildSeat, step_step b0 .buildEngine,
    step_step b0 .buildComputer⟩, ?_⟩
  have hw : (h.write a (b.steps constructOrder)).read a = some (b.steps constructOrder) :=
    Heap.read_write_self _ (Heap.read_lt hr)
  refine ⟨_, _, construct_of_read hr, get_of_read hw, ?_, rfl⟩
  rw [construct_of_read hw, Heap.write_write, steps_constructOrder_twice]

/-- Witness of C10: a director holding a fresh `SedanBuilder` at address 0. -/
theorem C10_steps_and_construct_idempotent_witness :
    (CarDirector.mk (some 0)).builder = some 0
    ∧ (Heap.mk [some (CarBuilder.new .SedanBuilder)]).read 0
        = some (CarBuilder.new .SedanBuilder)
    ∧ ∃ h1 car, (CarDirector.mk (some 0)).construct ⟨[some (CarBuilder.new .SedanBuilder)]⟩
          = .returned h1
      ∧ (CarDirector.mk (some 0)).get h1 = .returned car
      ∧ (CarDirector.mk (some 0)).construct h1 = .returned h1
      ∧ car = ((CarBuilder.new .SedanBuilder).steps constructOrder).car :=
  ⟨rfl, rfl, (C10_steps_and_construct_idempotent (CarDirector.mk (some 0))
    ⟨[some (CarBuilder.new .SedanBuilder)]⟩ 0 (CarBuilder.new .SedanBuilder) rfl rfl).2⟩

end Builder

/-! ## Singleton.cpp: the claims -/

namespace Singleton

/-- After `get`, the static handle is the pointer returned, which is not null. -/
theorem get_thisInstance (s : Statics) :
    (get s).2.thisInstance = (get s).1 ∧ (get s).1 ≠ none := by
  unfold get
  cases hs : s.thisInstance with
  | none => simp [Heap.alloc]
  | some a => simp [hs]

/-- With a non-null handle, `get` returns the handle and changes nothing. -/
theorem get_of_some {s : Statics} {a : Nat} (hs : s.thisInstance = some a) :
    get s = (some a, s) := by
  simp [get, hs]

/-- A call of `get` right after a call of `get` returns the same pointer and changes nothing. -/
theorem get_get (s : Statics) : get (get s).2 = ((get s).1, (get s).2) := by
  obtain ⟨ht, hne⟩ := get_thisInstance s
  cases hp : (get s).1 with
  | none => exact absurd hp hne
  | some a =>
    rw [hp] at ht
    exact get_of_some ht

/-- Any positive number of consecutive calls of `get` leaves the state of the first. -/
theorem gets_succ (s : Statics) (n : Nat) : gets s (n + 1) = (get s).2 := by
  induction n generalizing s with
  | zero => rfl
  | succ k ih =>
    have h1 : gets s (k + 1 + 1) = gets (get s).2 (k + 1) := rfl
    rw [h1, ih, get_get]

/-- One call of `get` allocates at most one object. -/
theorem get_length (s : Statics) :
    (get s).2.heap.cells.length ≤ s.heap.cells.length + 1 := by
  unfold get
  cases hs : s.thisInstance with
  | none => simp [Heap.alloc]
  | some a => simp

/-- C2, evaluated on the calls `get()`, `restart()`, `get()` from program start: the
first `get` returns address 0; `restart` returns and deletes the object, yet the handle
`thisInstance` still holds address 0; the next `get` returns address 0 again, where no
object lives, and allocates nothing. -/
theorem C2_restart_keeps_the_stale_handle :
    get Statics.init = (some 0, ⟨⟨[some ⟨⟩]⟩, some 0⟩)
      ∧ restart ⟨⟨[some ⟨⟩]⟩, some 0⟩ = .returned ⟨⟨[none]⟩, some 0⟩
      ∧ (Statics.mk ⟨[none]⟩ (some 0)).thisInstance ≠ none
      ∧ get ⟨⟨[none]⟩, some 0⟩ = (some 0, ⟨⟨[none]⟩, some 0⟩)
      ∧ live ⟨⟨[none]⟩, some 0⟩ (some 0) = false
      ∧ run Statics.init [.get, .restart, .get] = .returned ⟨⟨[none]⟩, some 0⟩
      ∧ run Statics.init [.get, .restart, .get, .restart] = .undefined := by
  decide

/-- Outside the stale state the claim of C3 holds: when the handle is null or points
to a live object, two consecutive calls of `get` return the same pointer, an object
lives there, and the second call leaves the state of the first. -/
theorem get_twice_same_live_instance (s : Statics)
    (hs : s.thisInstance = none ∨ live s s.thisInstance = true) :
    (get (get s).2).1 = (get s).1
      ∧ (get (get s).2).2 = (get s).2
      ∧ live (get s).2 (get s).1 = true := by
  refine ⟨by rw [get_get], by rw [get_get], ?_⟩
  cases hp : s.thisInstance with
  | none =>
    have hr := Heap.read_alloc_self s.heap (Singleton.mk)
    simp only [Heap.alloc] at hr
    simp [get, hp, live, Heap.alloc, hr]
  | some a =>
    rw [hp] at hs
    rcases hs with hs | hs
    · cases hs
    · rw [get_of_some hp]
      exact hs

/-- C3, evaluated on the calls `get()`, `restart()`, `get()`, `get()` from program start:
`get()`, `restart()` return and leave the handle at address 0 with the object deleted;
the two consecutive calls of `get` that follow both return address 0 and change nothing,
but no object lives at address 0, nor anywhere in the store: what they return is not
an instance. -/
theorem C3_get_twice_after_restart_returns_no_instance :
    run Statics.init [.get, .restart] = .returned ⟨⟨[none]⟩, some 0⟩
      ∧ get ⟨⟨[none]⟩, some 0⟩ = (some 0, ⟨⟨[none]⟩, some 0⟩)
      ∧ get (get ⟨⟨[none]⟩, some 0⟩).2 = (some 0, ⟨⟨[none]⟩, some 0⟩)
      ∧ live (get (get ⟨⟨[none]⟩, some 0⟩).2).2 (get ⟨⟨[none]⟩, some 0⟩).1 = false
      ∧ live (get (get ⟨⟨[none]⟩, some 0⟩).2).2 (get (get ⟨⟨[none]⟩, some 0⟩).2).1 = false
      ∧ ∀ a, (get (get ⟨⟨[none]⟩, some 0⟩).2).2.heap.read a = none := by
  refine ⟨by decide, by decide, by decide, by decide, by decide, ?_⟩
  intro a
  cases a with
  | zero => rfl
  | succ k => simp [get, Heap.read]

end Singleton

/-! ## Prototype.cpp: the claims -/

namespace Prototype

/-- C4: for a live Rectangle or Circle behind a pointer, whatever its members hold,
`clone()` returns a pointer to a fresh object of the same class with every member,
inherited ones included, equal to the member of the source; the source and every
other object of the store are as before. -/
theorem C4_clone_copies_every_field (h : Heap Object) (a : Nat) (o : Object)
    (hr : h.read a = some o) :
    ∃ q h', clone h (some a) = .returned (some q, h')
      ∧ q ≠ a
      ∧ h'.read a = some o
      ∧ (∀ b, b ≠ q → h'.read b = h.read b)
      ∧ match o with
        | .Rectangle r => ∃ r', h'.read q = some (.Rectangle r')
            ∧ r'.x = r.x ∧ r'.y = r.y ∧ r'.color = r.color
            ∧ r'.width = r.width ∧ r'.height = r.height
        | .Circle c => ∃ c', h'.read q = some (.Circle c')
            ∧ c'.x = c.x ∧ c'.y = c.y ∧ c'.color = c.color ∧ c'.radius = c.radius := by
  have hlt := Heap.read_lt hr
  have hother : ∀ (v : Object) (b : Nat), b ≠ h.cells.length →
      (h.alloc v).2.read b = h.read b := by
    intro v b hb
    by_cases hbl : b < h.cells.length
    · exact Heap.read_alloc_of_lt h v hbl
    · have h1 : h.cells.length + 1 ≤ b := by omega
      simp only [Heap.read, Heap.alloc]
      rw [List.getElem?_eq_none (by simpa using h1),
        List.getElem?_eq_none (by omega)]
  cases o with
  | Rectangle r =>
    refine ⟨h.cells.length, (h.alloc (.Rectangle (Rectangle.copy r))).2, ?_,
      Nat.ne_of_gt hlt, Heap.read_alloc_of_read h _ hr, hother _, ?_⟩
    · simp [clone, hr, Heap.alloc]
    · exact ⟨Rectangle.copy r, Heap.read_alloc_self h _, rfl, rfl, rfl, rfl, rfl⟩
  | Circle c =>
    refine ⟨h.cells.length, (h.alloc (.Circle (Circle.copy c))).2, ?_,
      Nat.ne_of_gt hlt, Heap.read_alloc_of_read h _ hr, hother _, ?_⟩
    · simp [clone, hr, Heap.alloc]
    · exact ⟨Circle.copy c, Heap.read_alloc_self h _, rfl, rfl, rfl, rfl⟩

/-- Witness of C4: a coloured circle at address 0. -/
theorem C4_clone_copies_every_field_witness :
    (Heap.mk [some (Object.Circle ⟨⟨⟨7⟩, ⟨8⟩, "red"⟩, ⟨5⟩⟩)]).read 0
        = some (Object.Circle ⟨⟨⟨7⟩, ⟨8⟩, "red"⟩, ⟨5⟩⟩)
    ∧ ∃ q h', clone ⟨[some (Object.Circle ⟨⟨⟨7⟩, ⟨8⟩, "red"⟩, ⟨5⟩⟩)]⟩ (some 0)
          = .returned (some q, h')
        ∧ q ≠ 0
        ∧ h'.read 0 = some (Object.Circle ⟨⟨⟨7⟩, ⟨8⟩, "red"⟩, ⟨5⟩⟩) := by
  obtain ⟨q, h', hc, hq, hsrc, _, _⟩ :=
    C4_clone_copies_every_field ⟨[some (Object.Circle ⟨⟨⟨7⟩, ⟨8⟩, "red"⟩, ⟨5⟩⟩)]⟩ 0
      (Object.Circle ⟨⟨⟨7⟩, ⟨8⟩, "red"⟩, ⟨5⟩⟩) rfl
  exact ⟨rfl, q, h', hc, hq, hsrc⟩

end Prototype

/-! ## AbstractFactory.cpp: the claims -/

namespace AbstractFactory

/-- C5: `WinGUI` creates a `WinButton` and a `WinCheckbox`, `MacGUI` a `MacButton` and a
`MacCheckbox`; for either factory both products are of the factory's family, hence of
the same family, and the line each prints names that family. -/
theorem C5_products_carry_the_factory_family (f : Factory) :
    f.createButton.family = f.family
      ∧ f.createCheckbox.family = f.family
      ∧ f.createButton.family = f.createCheckbox.family
      ∧ f.createButton.showName = "<> Initialize " ++ f.family.name ++ " button"
      ∧ f.createCheckbox.showName = "<> Initialize " ++ f.family.name ++ " Checkbox"
      ∧ Factory.WinGUI.createButton = .WinButton
      ∧ Factory.WinGUI.createCheckbox = .WinCheckbox
      ∧ Factory.MacGUI.createButton = .MacButton
      ∧ Factory.MacGUI.createCheckbox = .MacCheckbox := by
  cases f <;> decide

end AbstractFactory

/-! ## FactoryMethod.cpp: the claims -/

namespace FactoryMethod

theorem delete_ne_raised (h : Heap Button) (p : Ptr) (e : Error) :
    h.delete p ≠ .raised e := by
  unfold Heap.delete
  cases p with
  | none => simp
  | some a => cases hx : h.free a <;> simp [hx]

/-- C7, as stated, fails: for both dialogs on the empty store, the first
`removeButton(b)` on the created button returns and the second does not end in a
`DoubleRelease` error. -/
theorem C7_second_removeButton_raises_nothing :
    (Dialog.WinDialog.removeButton (Dialog.WinDialog.createButton Heap.empty).2
          (Dialog.WinDialog.createButton Heap.empty).1 = .returned ⟨[none]⟩
      ∧ Dialog.WinDialog.removeButton ⟨[none]⟩ (Dialog.WinDialog.createButton Heap.empty).1
          ≠ .raised .DoubleRelease)
    ∧ (Dialog.MacDialog.removeButton (Dialog.MacDialog.createButton Heap.empty).2
          (Dialog.MacDialog.createButton Heap.empty).1 = .returned ⟨[none]⟩
      ∧ Dialog.MacDialog.removeButton ⟨[none]⟩ (Dialog.MacDialog.createButton Heap.empty).1
          ≠ .raised .DoubleRelease) := by
  decide

/-- C7, amended: for both dialogs and any store, the first `removeButton(b)` on the
button `b` returned by `createButton()` returns and deletes the button; a second
`removeButton(b)` deletes a deleted object, which is undefined behaviour; and no call
of `removeButton`, in any state, reports an error to the caller. -/
theorem C7_second_removeButton_is_undefined (d : Dialog) (h : Heap Button) :
    ∃ h2, d.removeButton (d.createButton h).2 (d.createButton h).1 = .returned h2
      ∧ h2.read h.cells.length = none
      ∧ (d.createButton h).1 = some h.cells.length
      ∧ d.removeButton h2 (d.createButton h).1 = .undefined
      ∧ ∀ (d0 : Dialog) (h0 : Heap Button) (p : Ptr) (e : Error),
          d0.removeButton h0 p ≠ .raised e := by
  have key : ∀ v : Button, ∃ h2, (h.alloc v).2.delete (some h.cells.length) = .returned h2
      ∧ h2.read h.cells.length = none
      ∧ h2.delete (some h.cells.length) = .undefined := by
    intro v
    have hf := Heap.free_of_read (Heap.read_alloc_self h v)
    have hgone := Heap.read_free_self hf
    simp only [Heap.alloc] at hf hgone
    refine ⟨_, ?_, hgone, ?_⟩
    · simp only [Heap.delete, Heap.alloc, hf]
    · simp only [Heap.delete, Heap.free_eq_none hgone]
  have hno : ∀ (d0 : Dialog) (h0 : Heap Button) (p : Ptr) (e : Error),
      d0.removeButton h0 p ≠ .raised e := by
    intro d0 h0 p e
    cases d0 <;> exact delete_ne_raised h0 p e
  cases d with
  | WinDialog =>
    obtain ⟨h2, h1, hg, hu⟩ := key .WinButton
    exact ⟨h2, h1, hg, rfl, hu, hno⟩
  | MacDialog =>
    obtain ⟨h2, h1, hg, hu⟩ := key .MacButton
    exact ⟨h2, h1, hg, rfl, hu, hno⟩

end FactoryMethod

end DesignPatterns
